import Mathlib

/-!
Shallow embedding of the support-ticket application (`src/streamlit_app.py`).

The program keeps one SQLite table `tickets(id, issue, status, priority,
date_submitted, created_at)` and exposes four data-access functions plus two
UI handlers (the submit handler of the "add ticket" form, and the edit
reconciliation loop of the data editor).  We model the database as an explicit
value of type `DBState`, stateful Python code as explicit state passing, and
a raised storage exception as an `Except` error.  `created_at TIMESTAMP
DEFAULT CURRENT_TIMESTAMP` is modelled by a monotone counter stamped at
insertion time.
-/

/-- One stored row of the `tickets` table. -/
structure Ticket where
  id : String
  issue : String
  status : String
  priority : String
  dateSubmitted : String
  createdAt : Nat
deriving Repr, DecidableEq

/-- The database: the stored rows (in insertion order) together with the
clock used to stamp `created_at` on insert. -/
structure DBState where
  rows : List Ticket
  clock : Nat
deriving Repr, DecidableEq

/-- A row as returned by `load_tickets_from_db`'s SELECT: the five displayed
columns (`created_at` is not selected). -/
structure Row where
  ID : String
  Issue : String
  Status : String
  Priority : String
  DateSubmitted : String
deriving Repr, DecidableEq

/-- Projection performed by the SELECT column list of `load_tickets_from_db`. -/
def toRow (t : Ticket) : Row :=
  ⟨t.id, t.issue, t.status, t.priority, t.dateSubmitted⟩

/-! ### SQLite expression semantics used by `get_next_ticket_number`

The query is `SELECT MAX(CAST(SUBSTR(id, 8) AS INTEGER)) FROM tickets`.
`SUBSTR(id, 8)` takes the characters of `id` from the 8th (1-based) on;
`CAST(text AS INTEGER)` skips leading whitespace, reads an optional sign and
then the longest digit prefix, and yields 0 when there are no digits.
(SQLite saturates at 64-bit bounds; ticket numbers start at 1001 and grow by
one, so saturation is unreachable and we model the value as unbounded.) -/

/-- Characters SQLite's text-to-integer conversion skips at the front. -/
def sqliteSpace (c : Char) : Bool :=
  c = ' ' || c = '\t' || c = '\n' || c = '\r' ||
  c = Char.ofNat 11 || c = Char.ofNat 12

/-- Decimal value of a digit character. -/
def digitVal (c : Char) : Nat := c.toNat - 48

/-- Read the longest digit prefix left-to-right into an accumulator;
stops at the first non-digit. -/
def readDigitsAux (acc : Nat) : List Char → Nat
  | [] => acc
  | c :: cs => if c.isDigit then readDigitsAux (10 * acc + digitVal c) cs else acc

/-- Largest value SQLite's text-to-integer conversion can produce: the
conversion saturates at the signed 64-bit bounds. -/
def int64Max : Int := 9223372036854775807

/-- Smallest value SQLite's text-to-integer conversion can produce. -/
def int64Min : Int := -9223372036854775808

/-- `CAST(s AS INTEGER)` on the character list of a TEXT value, saturating
at the int64 bounds as SQLite's `sqlite3Atoi64` does. -/
def sqliteCastInt (cs : List Char) : Int :=
  match cs.dropWhile sqliteSpace with
  | [] => 0
  | c :: rest =>
    if c = '-' then max (-(readDigitsAux 0 rest : Int)) int64Min
    else if c = '+' then min (readDigitsAux 0 rest : Int) int64Max
    else min (readDigitsAux 0 (c :: rest) : Int) int64Max

/-- `CAST(SUBSTR(id, 8) AS INTEGER)` applied to a stored row. -/
def ticketSuffix (t : Ticket) : Int := sqliteCastInt (t.id.data.drop 7)

/-! ### Decimal rendering, modelling Python's `f"TICKET-{ticket_number}"` -/

/-- Fuel-driven digit expansion; `fuel` bounds the recursion depth (the
value shrinks by a factor of ten per step, so any fuel above the value is
enough). -/
def natToDigitsAux : Nat → Nat → List Char
  | 0, _ => []
  | fuel + 1, n =>
    if n < 10 then [Nat.digitChar n]
    else natToDigitsAux fuel (n / 10) ++ [Nat.digitChar (n % 10)]

/-- The decimal digit characters of `n`, most significant first
(Python's `str` on a non-negative int). -/
def natToDigits (n : Nat) : List Char := natToDigitsAux (n + 1) n

/-- Python's `str` on an int (used by the f-string building the ticket id). -/
def intToDecString (n : Int) : String :=
  if n < 0 then ⟨'-' :: natToDigits n.natAbs⟩ else ⟨natToDigits n.natAbs⟩

/-! ### Data-access functions (`streamlit_app.py` lines 27-87) -/

/-- `get_next_ticket_number`: maximum parsed suffix plus one, or 1001 when
the table is empty (SQL `MAX` over no rows is NULL). -/
def get_next_ticket_number (db : DBState) : Int :=
  match db.rows.map ticketSuffix with
  | [] => 1001
  | x :: xs => xs.foldl max x + 1

/-- The dictionary built by the submit handler (lines 124-130). -/
structure TicketData where
  ID : String
  Issue : String
  Status : String
  Priority : String
  DateSubmitted : String
deriving Repr, DecidableEq

/-- `save_ticket_to_db`: a single INSERT.  It raises (`Except.error`) when the
storage engine fails (`fail` injects such a failure) or when the PRIMARY KEY
constraint on `id` is violated; a failed single statement changes nothing. -/
def save_ticket_to_db (fail : Bool) (td : TicketData) (db : DBState) :
    Except String DBState :=
  if fail then .error ("storage failure")
  else if db.rows.any (fun t => t.id = td.ID) then
    .error ("UNIQUE constraint failed: tickets.id")
  else
    .ok ⟨db.rows ++ [⟨td.ID, td.Issue, td.Status, td.Priority, td.DateSubmitted,
          db.clock⟩], db.clock + 1⟩

/-- The ORDER BY relation of `load_tickets_from_db`: `created_at DESC`. -/
def byCreatedDesc (a b : Ticket) : Prop := b.createdAt ≤ a.createdAt

instance : DecidableRel byCreatedDesc := fun a b =>
  inferInstanceAs (Decidable (b.createdAt ≤ a.createdAt))

instance : IsTotal Ticket byCreatedDesc :=
  ⟨fun a b => Nat.le_total b.createdAt a.createdAt⟩

instance : IsTrans Ticket byCreatedDesc :=
  ⟨fun _ _ _ h h2 => Nat.le_trans h2 h⟩

/-- `load_tickets_from_db`: SELECT of the five display columns ordered by
`created_at DESC`; a pure read, so the state comes back unchanged. -/
def load_tickets_from_db (db : DBState) : DBState × List Row :=
  (db, (db.rows.insertionSort byCreatedDesc).map toRow)

/-- `update_ticket_in_db`: `UPDATE tickets SET status = ?, priority = ?
WHERE id = ?` — rewrites the two columns on every row matching the id,
touching nothing else; no error when no row matches. -/
def update_ticket_in_db (tid status priority : String) (db : DBState) : DBState :=
  ⟨db.rows.map (fun t =>
      if t.id = tid then ⟨t.id, t.issue, status, priority, t.dateSubmitted, t.createdAt⟩
      else t),
   db.clock⟩

/-- `update_ticket_in_db` behind a storage engine that may raise: a failed
statement changes nothing (single-statement atomicity). -/
def update_ticket_in_db_f (fail : Bool) (tid status priority : String)
    (db : DBState) : Except String DBState :=
  if fail then .error ("storage failure")
  else .ok (update_ticket_in_db tid status priority db)

/-! ### Submit handler (lines 115-146) -/

/-- The character set stripped by Python's `str.strip()`: the Unicode
whitespace class (CPython's `Py_UNICODE_ISSPACE`): U+0009-U+000D,
U+001C-U+001F, space, U+0085 (NEL), U+00A0 (NBSP), U+1680 (Ogham space
mark), U+2000-U+200A, U+2028/U+2029 (line/paragraph separator), U+202F
(narrow NBSP), U+205F (medium mathematical space), U+3000 (ideographic
space). -/
def pyWhitespace (c : Char) : Bool :=
  (9 ≤ c.toNat && c.toNat ≤ 13) || (28 ≤ c.toNat && c.toNat ≤ 32) ||
  c.toNat = 133 || c.toNat = 160 || c.toNat = 5760 ||
  (8192 ≤ c.toNat && c.toNat ≤ 8202) || c.toNat = 8232 || c.toNat = 8233 ||
  c.toNat = 8239 || c.toNat = 8287 || c.toNat = 12288

/-- Python's `str.strip()` on the character list of a string: drop whitespace
from both ends. -/
def pyStrip (cs : List Char) : List Char :=
  ((cs.dropWhile pyWhitespace).reverse.dropWhile pyWhitespace).reverse

/-- What the submit handler surfaces to the user. -/
inductive SubmitOutcome where
  | validationFailed (msg : String)
  | saved (record : TicketData)
  | storageFailed (msg : String)
deriving Repr, DecidableEq

/-- The submit handler: validate emptiness of `issue.strip()` (Python's `if
not issue.strip()`), derive the next ticket number, build the record with
status `"Open"` and today's date, try the insert, and either display the
created record or catch the exception and show an error.  Returns the
database state and the surfaced outcome. -/
def submitHandler (fail : Bool) (issue priority today : String) (db : DBState) :
    DBState × SubmitOutcome :=
  if pyStrip issue.data = [] then
    (db, .validationFailed ("⚠️ Por favor describe el problema antes de enviar el ticket"))
  else
    let ticketNumber := get_next_ticket_number db
    let td : TicketData :=
      ⟨"TICKET-" ++ intToDecString ticketNumber, issue, "Open", priority, today⟩
    match save_ticket_to_db fail td db with
    | .ok db1 => (db1, .saved td)
    | .error e => (db, .storageFailed ("❌ Error al guardar el ticket: " ++ e))

/-! ### Edit reconciliation loop (lines 181-195) -/

/-- One `update_ticket_in_db` invocation recorded by the reconciliation loop. -/
structure UpdateCall where
  id : String
  status : String
  priority : String
deriving Repr, DecidableEq

/-- Applies one recorded call to the database. -/
def applyCall (db : DBState) (c : UpdateCall) : DBState :=
  update_ticket_in_db c.id c.status c.priority db

/-- The reconciliation loop when storage never fails: walk the edited and the
last-loaded snapshots in parallel by position and, for every position whose
status or priority differs, issue one update with that edited row's ID,
Status and Priority.  Returns the final state and the list of issued calls. -/
def reconcile (edited original : List Row) (db : DBState) :
    DBState × List UpdateCall :=
  match edited, original with
  | e :: es, o :: os =>
    if e.Status ≠ o.Status ∨ e.Priority ≠ o.Priority then
      let db1 := update_ticket_in_db e.ID e.Status e.Priority db
      let r := reconcile es os db1
      (r.1, ⟨e.ID, e.Status, e.Priority⟩ :: r.2)
    else reconcile es os db
  | _, _ => (db, [])

/-- The reconciliation loop under a storage engine that may raise: the k-th
issued call fails iff `failAt k` (with `k0` calls already issued before this
iteration).  The first raised exception aborts the loop and is caught by the
surrounding try/except, which surfaces the message.  Returns the state and
the surfaced error, if any. -/
def reconcileF (failAt : Nat → Bool) (k0 : Nat) (edited original : List Row)
    (db : DBState) : DBState × Option String :=
  match edited, original with
  | e :: es, o :: os =>
    if e.Status ≠ o.Status ∨ e.Priority ≠ o.Priority then
      match update_ticket_in_db_f (failAt k0) e.ID e.Status e.Priority db with
      | .ok db1 => reconcileF failAt (k0 + 1) es os db1
      | .error msg => (db, some ("❌ Error al actualizar: " ++ msg))
    else reconcileF failAt k0 es os db
  | _, _ => (db, none)

/-! ### Helper lemmas: decimal rendering round-trips through SQLite's CAST -/

theorem digitChar_isDigit (d : Nat) (h : d < 10) : (Nat.digitChar d).isDigit = true := by
  interval_cases d <;> decide

theorem digitVal_digitChar (d : Nat) (h : d < 10) : digitVal (Nat.digitChar d) = d := by
  interval_cases d <;> decide

theorem natToDigitsAux_ne_nil : ∀ (fuel n : Nat), n < fuel →
    natToDigitsAux fuel n ≠ [] := by
  intro fuel
  induction fuel with
  | zero => intro n h; omega
  | succ f ih =>
    intro n h
    simp only [natToDigitsAux]
    split <;> simp

theorem natToDigits_ne_nil (n : Nat) : natToDigits n ≠ [] :=
  natToDigitsAux_ne_nil (n + 1) n (Nat.lt_succ_self n)

theorem natToDigitsAux_all_digits : ∀ (fuel n : Nat), n < fuel →
    ∀ c ∈ natToDigitsAux fuel n, c.isDigit = true := by
  intro fuel
  induction fuel with
  | zero => intro n h; omega
  | succ f ih =>
    intro n h c hc
    simp only [natToDigitsAux] at hc
    split at hc
    · next h10 =>
      simp only [List.mem_singleton] at hc
      subst hc
      exact digitChar_isDigit n h10
    · next h10 =>
      rw [List.mem_append] at hc
      rcases hc with hc | hc
      · exact ih (n / 10) (by omega) c hc
      · simp only [List.mem_singleton] at hc
        subst hc
        exact digitChar_isDigit (n % 10) (Nat.mod_lt _ (by omega))

theorem natToDigits_all_digits (n : Nat) :
    ∀ c ∈ natToDigits n, c.isDigit = true :=
  natToDigitsAux_all_digits (n + 1) n (Nat.lt_succ_self n)

theorem readDigitsAux_append (acc : Nat) (xs ys : List Char)
    (h : ∀ c ∈ xs, c.isDigit = true) :
    readDigitsAux acc (xs ++ ys) = readDigitsAux (readDigitsAux acc xs) ys := by
  induction xs generalizing acc with
  | nil => rfl
  | cons c cs ih =>
    have hc : c.isDigit = true := h c (by simp)
    simp only [List.cons_append, readDigitsAux, hc, if_pos]
    exact ih _ (fun d hd => h d (List.mem_cons_of_mem _ hd))

theorem readDigitsAux_natToDigitsAux : ∀ (fuel n : Nat), n < fuel → ∀ acc,
    readDigitsAux acc (natToDigitsAux fuel n) =
      acc * 10 ^ (natToDigitsAux fuel n).length + n := by
  intro fuel
  induction fuel with
  | zero => intro n h; omega
  | succ f ih =>
    intro n h acc
    simp only [natToDigitsAux]
    split
    · next h10 =>
      simp [readDigitsAux, digitChar_isDigit n h10, digitVal_digitChar n h10]
      omega
    · next h10 =>
      rw [readDigitsAux_append _ _ _
        (natToDigitsAux_all_digits f (n / 10) (by omega))]
      rw [ih (n / 10) (by omega) acc]
      have hm : n % 10 < 10 := Nat.mod_lt _ (by omega)
      simp [readDigitsAux, digitChar_isDigit _ hm, digitVal_digitChar _ hm,
        List.length_append, pow_succ]
      have : 10 * (n / 10) + n % 10 = n := Nat.div_add_mod n 10
      ring_nf
      omega

theorem readDigitsAux_natToDigits (n : Nat) : ∀ acc,
    readDigitsAux acc (natToDigits n) =
      acc * 10 ^ (natToDigits n).length + n :=
  readDigitsAux_natToDigitsAux (n + 1) n (Nat.lt_succ_self n)

theorem isDigit_sqliteSpace_false (c : Char) (h : c.isDigit = true) :
    sqliteSpace c = false := by
  unfold sqliteSpace
  by_contra hne
  have htrue : (decide (c = ' ') || decide (c = '\t') || decide (c = '\n') ||
      decide (c = '\r') || decide (c = Char.ofNat 11) ||
      decide (c = Char.ofNat 12)) = true := by
    revert hne
    cases (decide (c = ' ') || decide (c = '\t') || decide (c = '\n') ||
      decide (c = '\r') || decide (c = Char.ofNat 11) || decide (c = Char.ofNat 12)) <;> simp
  simp only [Bool.or_eq_true, decide_eq_true_eq] at htrue
  rcases htrue with ((((h1 | h1) | h1) | h1) | h1) | h1 <;> subst h1 <;> simp at h

theorem isDigit_ne_minus (c : Char) (h : c.isDigit = true) : c ≠ '-' := by
  intro hc
  subst hc
  simp at h

theorem isDigit_ne_plus (c : Char) (h : c.isDigit = true) : c ≠ '+' := by
  intro hc
  subst hc
  simp at h

theorem sqliteCastInt_digit_cons (c : Char) (cs : List Char)
    (h : c.isDigit = true) :
    sqliteCastInt (c :: cs) = min (readDigitsAux 0 (c :: cs) : Int) int64Max := by
  unfold sqliteCastInt
  rw [List.dropWhile_cons]
  simp [isDigit_sqliteSpace_false c h, isDigit_ne_minus c h, isDigit_ne_plus c h]

theorem sqliteCastInt_natToDigits (n : Nat) :
    sqliteCastInt (natToDigits n) = min (n : Int) int64Max := by
  obtain ⟨c, cs, hcons⟩ : ∃ c cs, natToDigits n = c :: cs := by
    cases hx : natToDigits n with
    | nil => exact absurd hx (natToDigits_ne_nil n)
    | cons c cs => exact ⟨c, cs, rfl⟩
  have hd : c.isDigit = true :=
    natToDigits_all_digits n c (by rw [hcons]; simp)
  rw [hcons, sqliteCastInt_digit_cons c cs hd, ← hcons,
    readDigitsAux_natToDigits n 0]
  simp

theorem sqliteCastInt_intToDecString (n : Int) (hge : int64Min ≤ n)
    (hle : n ≤ int64Max) :
    sqliteCastInt (intToDecString n).data = n := by
  unfold intToDecString
  split
  · next h =>
    show sqliteCastInt ('-' :: natToDigits n.natAbs) = n
    have hm : sqliteCastInt ('-' :: natToDigits n.natAbs) =
        max (-(readDigitsAux 0 (natToDigits n.natAbs) : Int)) int64Min := by
      unfold sqliteCastInt
      rw [List.dropWhile_cons]
      have hsp : sqliteSpace '-' = false := by decide
      simp [hsp]
    rw [hm, readDigitsAux_natToDigits n.natAbs 0]
    have hz : 0 * 10 ^ (natToDigits n.natAbs).length + n.natAbs = n.natAbs := by
      omega
    rw [hz]
    have hv : -((n.natAbs : Nat) : Int) = n := by omega
    rw [hv]
    exact max_eq_left hge
  · next h =>
    show sqliteCastInt (natToDigits n.natAbs) = n
    rw [sqliteCastInt_natToDigits]
    have hv : ((n.natAbs : Nat) : Int) = n := by omega
    rw [hv]
    exact min_eq_left hle

/-- Every value SQLite's CAST can produce is at least the int64 minimum. -/
theorem sqliteCastInt_ge_min (cs : List Char) : int64Min ≤ sqliteCastInt cs := by
  have hmin0 : int64Min ≤ 0 := by norm_num [int64Min]
  unfold sqliteCastInt
  split
  · exact hmin0
  · split
    · exact le_max_right _ _
    · split
      · exact le_trans hmin0 (le_min (Int.natCast_nonneg _) (by norm_num [int64Max]))
      · exact le_trans hmin0 (le_min (Int.natCast_nonneg _) (by norm_num [int64Max]))

theorem data_ticket_prefix_append (s : String) :
    ("TICKET-" ++ s).data.drop 7 = s.data := by
  rw [String.data_append]
  have h7 : ("TICKET-" : String).data.length = 7 := by decide
  rw [← h7, List.drop_left]

/-- The parsed suffix of a freshly built id `"TICKET-" ++ str(n)` is `n`,
provided `n` lies within the int64 range (so the CAST does not saturate). -/
theorem suffix_roundtrip (n : Int) (hge : int64Min ≤ n) (hle : n ≤ int64Max) :
    sqliteCastInt (("TICKET-" ++ intToDecString n).data.drop 7) = n := by
  rw [data_ticket_prefix_append, sqliteCastInt_intToDecString n hge hle]

/-! ### Helper lemmas: `foldl max` over the suffix list -/

theorem le_foldl_max (x : Int) (xs : List Int) :
    ∀ y ∈ x :: xs, y ≤ xs.foldl max x := by
  induction xs generalizing x with
  | nil =>
    intro y hy
    simp only [List.foldl_nil]
    simp only [List.mem_cons, List.not_mem_nil, or_false] at hy
    omega
  | cons a as ih =>
    intro y hy
    simp only [List.foldl_cons]
    simp only [List.mem_cons] at hy
    rcases hy with hy | hy | hy
    · subst hy
      exact le_trans (le_max_left y a) (ih (max y a) (max y a) (by simp))
    · subst hy
      exact le_trans (le_max_right x y) (ih (max x y) (max x y) (by simp))
    · exact ih (max x a) y (by simp [hy])

theorem foldl_max_mem (x : Int) (xs : List Int) :
    xs.foldl max x ∈ x :: xs := by
  induction xs generalizing x with
  | nil => simp
  | cons a as ih =>
    simp only [List.foldl_cons]
    have h := ih (max x a)
    simp only [List.mem_cons] at h ⊢
    rcases h with h | h
    · rcases max_choice x a with hm | hm <;> rw [hm] at h ⊢ <;> simp [h]
    · simp [h]

/-! ### Key lemmas about ticket creation -/

/-- Every stored suffix is strictly below the computed next ticket number. -/
theorem get_next_gt_suffix (db : DBState) (t : Ticket) (ht : t ∈ db.rows) :
    ticketSuffix t < get_next_ticket_number db := by
  unfold get_next_ticket_number
  split
  · next heq =>
    have : db.rows = [] := by
      cases hr : db.rows with
      | nil => rfl
      | cons a as => rw [hr] at heq; simp at heq
    rw [this] at ht
    simp at ht
  · next x xs heq =>
    have hmem : ticketSuffix t ∈ db.rows.map ticketSuffix :=
      List.mem_map_of_mem _ ht
    rw [heq] at hmem
    have := le_foldl_max x xs (ticketSuffix t) hmem
    omega

/-- The computed next number always lies strictly above the int64 minimum:
it is one more than a value the CAST produced (or 1001 on an empty table). -/
theorem get_next_gt_min (db : DBState) : int64Min < get_next_ticket_number db := by
  unfold get_next_ticket_number
  split
  · norm_num [int64Min]
  · next x xs heq =>
    have hmem : xs.foldl max x ∈ x :: xs := foldl_max_mem x xs
    rw [← heq] at hmem
    obtain ⟨t, ht, hts⟩ := List.mem_map.mp hmem
    have hts2 : sqliteCastInt (t.id.data.drop 7) = xs.foldl max x := hts
    have hge := sqliteCastInt_ge_min (t.id.data.drop 7)
    omega

/-- As long as the next number does not exceed the int64 maximum, the freshly
built id `"TICKET-" ++ str(next)` collides with no stored id. -/
theorem fresh_id_not_stored (db : DBState) (t : Ticket) (ht : t ∈ db.rows)
    (hle : get_next_ticket_number db ≤ int64Max) :
    t.id ≠ "TICKET-" ++ intToDecString (get_next_ticket_number db) := by
  intro hid
  have hsuf : ticketSuffix t = get_next_ticket_number db := by
    unfold ticketSuffix
    rw [hid, suffix_roundtrip _ (le_of_lt (get_next_gt_min db)) hle]
  have hlt := get_next_gt_suffix db t ht
  omega

/-- The record the submit handler builds on the non-empty path. -/
def freshRecord (issue priority today : String) (db : DBState) : TicketData :=
  ⟨"TICKET-" ++ intToDecString (get_next_ticket_number db), issue, "Open",
    priority, today⟩

/-- The row the INSERT stores for that record. -/
def freshTicket (issue priority today : String) (db : DBState) : Ticket :=
  ⟨"TICKET-" ++ intToDecString (get_next_ticket_number db), issue, "Open",
    priority, today, db.clock⟩

/-- Below saturation, the INSERT's primary-key probe finds no match. -/
theorem fresh_id_any_false (db : DBState)
    (hle : get_next_ticket_number db ≤ int64Max) :
    (db.rows.any fun t =>
      t.id = "TICKET-" ++ intToDecString (get_next_ticket_number db)) = false := by
  rw [List.any_eq_false]
  intro t ht
  simp only [decide_eq_true_eq]
  exact fresh_id_not_stored db t ht hle

/-- The submit handler on the non-empty path when the fresh id collides with
no stored id: the insert succeeds and the record is displayed. -/
theorem submitHandler_of_any_false (issue priority today : String)
    (db : DBState) (h : pyStrip issue.data ≠ [])
    (hany : (db.rows.any fun t =>
      t.id = "TICKET-" ++ intToDecString (get_next_ticket_number db)) = false) :
    submitHandler false issue priority today db =
      (⟨db.rows ++ [freshTicket issue priority today db], db.clock + 1⟩,
        .saved (freshRecord issue priority today db)) := by
  simp only [submitHandler, save_ticket_to_db, if_neg h, Bool.false_eq_true,
    if_false, freshRecord, freshTicket]
  rw [hany]
  simp

/-- The submit handler on the non-empty path when the fresh id does collide
(only possible at a saturated suffix): the INSERT raises, the exception is
caught, the state is unchanged. -/
theorem submitHandler_of_any_true (issue priority today : String)
    (db : DBState) (h : pyStrip issue.data ≠ [])
    (hany : (db.rows.any fun t =>
      t.id = "TICKET-" ++ intToDecString (get_next_ticket_number db)) = true) :
    submitHandler false issue priority today db =
      (db, .storageFailed
        ("❌ Error al guardar el ticket: UNIQUE constraint failed: tickets.id")) := by
  simp only [submitHandler, save_ticket_to_db, if_neg h, Bool.false_eq_true,
    if_false]
  rw [hany]
  simp

/-- With a healthy storage engine, a non-empty issue and no saturation, the
submit handler succeeds: the fresh id cannot violate the primary key. -/
theorem submitHandler_success (issue priority today : String) (db : DBState)
    (h : pyStrip issue.data ≠ [])
    (hle : get_next_ticket_number db ≤ int64Max) :
    submitHandler false issue priority today db =
      (⟨db.rows ++ [freshTicket issue priority today db], db.clock + 1⟩,
        .saved (freshRecord issue priority today db)) :=
  submitHandler_of_any_false issue priority today db h (fresh_id_any_false db hle)

/-- Below saturation, the suffix of the freshly inserted row parses back to
the number that produced it. -/
theorem ticketSuffix_freshTicket (issue priority today : String) (db : DBState)
    (hle : get_next_ticket_number db ≤ int64Max) :
    ticketSuffix (freshTicket issue priority today db) =
      get_next_ticket_number db := by
  show sqliteCastInt
    (("TICKET-" ++ intToDecString (get_next_ticket_number db)).data.drop 7) = _
  rw [suffix_roundtrip _ (le_of_lt (get_next_gt_min db)) hle]

theorem get_next_of_empty (db : DBState) (h : db.rows = []) :
    get_next_ticket_number db = 1001 := by
  simp [get_next_ticket_number, h]

/-- Computing the next number on a table whose suffix list ends in a strict
maximum `m` yields `m + 1`. -/
theorem get_next_of_strict_max (db2 : DBState) (l : List Int) (m : Int)
    (hmap : db2.rows.map ticketSuffix = l ++ [m])
    (hall : ∀ s ∈ l, s < m) :
    get_next_ticket_number db2 = m + 1 := by
  unfold get_next_ticket_number
  rw [hmap]
  cases l with
  | nil => simp
  | cons x xs =>
    simp only [List.cons_append]
    rw [List.foldl_append]
    simp only [List.foldl_cons, List.foldl_nil]
    have hfm : List.foldl max x xs ∈ x :: xs := foldl_max_mem x xs
    have hlt : List.foldl max x xs < m := hall _ hfm
    rw [max_eq_right (le_of_lt hlt)]

/-- Inserting the fresh row advances the next ticket number by exactly one
(below saturation). -/
theorem get_next_after_fresh (issue priority today : String) (db : DBState)
    (hle : get_next_ticket_number db ≤ int64Max) :
    get_next_ticket_number
      ⟨db.rows ++ [freshTicket issue priority today db], db.clock + 1⟩ =
      get_next_ticket_number db + 1 := by
  refine get_next_of_strict_max _ (db.rows.map ticketSuffix)
    (get_next_ticket_number db) ?_ ?_
  · show (db.rows ++ [freshTicket issue priority today db]).map ticketSuffix = _
    rw [List.map_append]
    simp [ticketSuffix_freshTicket issue priority today db hle]
  · intro s hs
    obtain ⟨t, ht, hts⟩ := List.mem_map.mp hs
    rw [← hts]
    exact get_next_gt_suffix db t ht

/-! ### Claim theorems -/

/-- **C3.** For every issue text that is empty or consists only of
whitespace, submitting the creation form performs no insert — the returned
database state equals the input state — and surfaces the validation error
message, whatever the storage engine would have done. -/
theorem c3_blank_issue_rejected (fail : Bool) (issue priority today : String)
    (db : DBState) (h : ∀ c ∈ issue.data, pyWhitespace c = true) :
    submitHandler fail issue priority today db =
      (db, .validationFailed
        ("⚠️ Por favor describe el problema antes de enviar el ticket")) := by
  have hstrip : pyStrip issue.data = [] := by
    unfold pyStrip
    have h1 : issue.data.dropWhile pyWhitespace = [] :=
      List.dropWhile_eq_nil_iff.mpr h
    rw [h1]
    simp
  unfold submitHandler
  rw [if_pos hstrip]

/-- Witness for C3 at the two-space issue text on a one-row database. -/
theorem c3_blank_issue_rejected_witness :
    (∀ c ∈ ("  " : String).data, pyWhitespace c = true) ∧
    submitHandler false ("  ") ("High") ("2026-10-12")
        ⟨[⟨"TICKET-1001", "x", "Open", "Low", "2026-10-11", 0⟩], 1⟩ =
      (⟨[⟨"TICKET-1001", "x", "Open", "Low", "2026-10-11", 0⟩], 1⟩,
        .validationFailed
          ("⚠️ Por favor describe el problema antes de enviar el ticket")) :=
  ⟨by decide, c3_blank_issue_rejected false ("  ") ("High") ("2026-10-12")
    ⟨[⟨"TICKET-1001", "x", "Open", "Low", "2026-10-11", 0⟩], 1⟩ (by decide)⟩

/-- **C10.** Every successful creation stores the submitted issue text
verbatim — leading and trailing whitespace included; stripping only decides
the emptiness check.  Whenever the handler reports a saved record, that
record carries the submitted text unchanged and so does the one row the
insert appended. -/
theorem c10_issue_stored_verbatim (issue priority today : String)
    (db : DBState) (r : TicketData)
    (h : (submitHandler false issue priority today db).2 = .saved r) :
    r.Issue = issue ∧
    ∃ t : Ticket,
      (submitHandler false issue priority today db).1.rows = db.rows ++ [t] ∧
      t.issue = issue := by
  by_cases hstrip : pyStrip issue.data = []
  · have hv : submitHandler false issue priority today db =
        (db, .validationFailed
          ("⚠️ Por favor describe el problema antes de enviar el ticket")) := by
      unfold submitHandler
      rw [if_pos hstrip]
    rw [hv] at h
    simp at h
  · by_cases hany : (db.rows.any fun t =>
        t.id = "TICKET-" ++ intToDecString (get_next_ticket_number db)) = true
    · rw [submitHandler_of_any_true issue priority today db hstrip hany] at h
      simp at h
    · have hfalse : (db.rows.any fun t =>
          t.id = "TICKET-" ++ intToDecString (get_next_ticket_number db)) =
          false := by
        simpa using hany
      have hs := submitHandler_of_any_false issue priority today db hstrip hfalse
      have hr : r = freshRecord issue priority today db := by
        rw [hs] at h
        simpa using h.symm
      refine ⟨by rw [hr]; simp [freshRecord],
        freshTicket issue priority today db, by rw [hs], rfl⟩

/-- Witness for C10: a concrete successful creation whose issue text has
leading and trailing blanks. -/
theorem c10_issue_stored_verbatim_witness :
    (submitHandler false ("  leak  ") ("Low") ("2026-10-12") ⟨[], 0⟩).2 =
      .saved ⟨"TICKET-1001", "  leak  ", "Open", "Low", "2026-10-12"⟩ ∧
    ((⟨"TICKET-1001", "  leak  ", "Open", "Low",
        "2026-10-12"⟩ : TicketData).Issue = "  leak  " ∧
      ∃ t : Ticket,
        (submitHandler false ("  leak  ") ("Low") ("2026-10-12")
          ⟨[], 0⟩).1.rows = ([] : List Ticket) ++ [t] ∧
        t.issue = "  leak  ") := by
  have h : (submitHandler false ("  leak  ") ("Low") ("2026-10-12") ⟨[], 0⟩).2 =
      .saved ⟨"TICKET-1001", "  leak  ", "Open", "Low", "2026-10-12"⟩ := by
    decide
  exact ⟨h, c10_issue_stored_verbatim ("  leak  ") ("Low") ("2026-10-12")
    ⟨[], 0⟩ ⟨"TICKET-1001", "  leak  ", "Open", "Low", "2026-10-12"⟩ h⟩

/-- **C2.** A successful creation inserts exactly one row — its id is
`"TICKET-"` followed by the next ticket number, its status `"Open"`, its
date_submitted today's date — and that same record is what the handler
returns for display; in particular on an empty table the first ticket is
`TICKET-1001` with status `"Open"` and a second creation yields
`TICKET-1002`. -/
theorem c2_create_inserts_one_row (issue priority today : String)
    (db : DBState) (h : pyStrip issue.data ≠ []) :
    (∀ r : TicketData,
      (submitHandler false issue priority today db).2 = .saved r →
      r = ⟨"TICKET-" ++ intToDecString (get_next_ticket_number db),
        issue, "Open", priority, today⟩ ∧
      (submitHandler false issue priority today db).1.rows =
        db.rows ++ [⟨"TICKET-" ++ intToDecString (get_next_ticket_number db),
          issue, "Open", priority, today, db.clock⟩]) ∧
    (db.rows = [] →
      (submitHandler false issue priority today db).2 =
        .saved ⟨"TICKET-1001", issue, "Open", priority, today⟩) ∧
    (∀ issue2 priority2 today2 : String, pyStrip issue2.data ≠ [] →
      db.rows = [] →
      (submitHandler false issue2 priority2 today2
          (submitHandler false issue priority today db).1).2 =
        .saved ⟨"TICKET-1002", issue2, "Open", priority2, today2⟩) := by
  refine ⟨?_, ?_, ?_⟩
  · intro r hr
    by_cases hany : (db.rows.any fun t =>
        t.id = "TICKET-" ++ intToDecString (get_next_ticket_number db)) = true
    · rw [submitHandler_of_any_true issue priority today db h hany] at hr
      simp at hr
    · have hfalse : (db.rows.any fun t =>
          t.id = "TICKET-" ++ intToDecString (get_next_ticket_number db)) =
          false := by
        simpa using hany
      have hs := submitHandler_of_any_false issue priority today db h hfalse
      rw [hs] at hr
      have hr2 : freshRecord issue priority today db = r := by
        simpa using hr
      constructor
      · rw [← hr2]
        simp [freshRecord]
      · rw [hs]
        simp [freshTicket]
  · intro hempty
    have h1001 := get_next_of_empty db hempty
    have hle : get_next_ticket_number db ≤ int64Max := by
      rw [h1001]
      norm_num [int64Max]
    rw [submitHandler_success issue priority today db h hle]
    have hid : "TICKET-" ++ intToDecString 1001 = "TICKET-1001" := by decide
    simp [freshRecord, h1001, hid]
  · intro issue2 priority2 today2 h2 hempty
    have h1001 := get_next_of_empty db hempty
    have hle : get_next_ticket_number db ≤ int64Max := by
      rw [h1001]
      norm_num [int64Max]
    rw [submitHandler_success issue priority today db h hle]
    have hnext := get_next_after_fresh issue priority today db hle
    have hle2 : get_next_ticket_number
        ⟨db.rows ++ [freshTicket issue priority today db], db.clock + 1⟩ ≤
        int64Max := by
      rw [hnext, h1001]
      norm_num [int64Max]
    rw [submitHandler_success issue2 priority2 today2 _ h2 hle2]
    have hid : "TICKET-" ++ intToDecString 1002 = "TICKET-1002" := by decide
    simp [freshRecord, hnext, h1001, hid]

/-- Witness for C2: two creations starting from the empty database. -/
theorem c2_create_inserts_one_row_witness :
    pyStrip ("printer broken" : String).data ≠ [] ∧
    ((∀ r : TicketData,
      (submitHandler false ("printer broken") ("Medium") ("2026-10-12")
        ⟨[], 0⟩).2 = .saved r →
      r = ⟨"TICKET-" ++ intToDecString (get_next_ticket_number ⟨[], 0⟩),
        "printer broken", "Open", "Medium", "2026-10-12"⟩ ∧
      (submitHandler false ("printer broken") ("Medium") ("2026-10-12")
        ⟨[], 0⟩).1.rows =
        ([] : List Ticket) ++ [⟨"TICKET-" ++
          intToDecString (get_next_ticket_number ⟨[], 0⟩),
          "printer broken", "Open", "Medium", "2026-10-12", 0⟩]) ∧
    (([] : List Ticket) = [] →
      (submitHandler false ("printer broken") ("Medium") ("2026-10-12")
          ⟨[], 0⟩).2 =
        .saved ⟨"TICKET-1001", "printer broken", "Open", "Medium",
          "2026-10-12"⟩) ∧
    (∀ issue2 priority2 today2 : String, pyStrip issue2.data ≠ [] →
      ([] : List Ticket) = [] →
      (submitHandler false issue2 priority2 today2
          (submitHandler false ("printer broken") ("Medium") ("2026-10-12")
            ⟨[], 0⟩).1).2 =
        .saved ⟨"TICKET-1002", issue2, "Open", priority2, today2⟩)) :=
  ⟨by decide, c2_create_inserts_one_row ("printer broken") ("Medium")
    ("2026-10-12") ⟨[], 0⟩ (by decide)⟩

/-- **C1 (amended).** `get_next_ticket_number` returns 1001 on an empty
table and one more than the maximum parsed suffix otherwise — for every
state; and, provided the next two numbers stay within the int64 range (so
SQLite's CAST saturates on no stored suffix), two successive creations with
non-empty issue texts both succeed and carry strictly increasing parsed id
suffixes, the first being 1001 on an empty table. -/
theorem c1_next_number_max_and_monotone (db : DBState)
    (issue1 priority1 today1 issue2 priority2 today2 : String)
    (h1 : pyStrip issue1.data ≠ []) (h2 : pyStrip issue2.data ≠ []) :
    (db.rows = [] → get_next_ticket_number db = 1001) ∧
    (db.rows ≠ [] → ∃ m : Int, m ∈ db.rows.map ticketSuffix ∧
      (∀ s ∈ db.rows.map ticketSuffix, s ≤ m) ∧
      get_next_ticket_number db = m + 1) ∧
    (get_next_ticket_number db + 1 ≤ int64Max →
      ∃ r1 r2 : TicketData,
        (submitHandler false issue1 priority1 today1 db).2 = .saved r1 ∧
        (submitHandler false issue2 priority2 today2
            (submitHandler false issue1 priority1 today1 db).1).2 = .saved r2 ∧
        sqliteCastInt (r1.ID.data.drop 7) < sqliteCastInt (r2.ID.data.drop 7) ∧
        (db.rows = [] → sqliteCastInt (r1.ID.data.drop 7) = 1001)) := by
  refine ⟨get_next_of_empty db, ?_, ?_⟩
  · intro hne
    cases hrows : db.rows.map ticketSuffix with
    | nil =>
      rw [List.map_eq_nil_iff] at hrows
      exact absurd hrows hne
    | cons x xs =>
      refine ⟨xs.foldl max x, ?_, ?_, ?_⟩
      · exact foldl_max_mem x xs
      · intro s hs
        exact le_foldl_max x xs s hs
      · simp [get_next_ticket_number, hrows]
  · intro hsat
    have hle1 : get_next_ticket_number db ≤ int64Max := by omega
    have hs1 := submitHandler_success issue1 priority1 today1 db h1 hle1
    set db1 : DBState :=
      ⟨db.rows ++ [freshTicket issue1 priority1 today1 db], db.clock + 1⟩ with hdb1
    have hnext : get_next_ticket_number db1 = get_next_ticket_number db + 1 := by
      rw [hdb1]
      exact get_next_after_fresh issue1 priority1 today1 db hle1
    have hle2 : get_next_ticket_number db1 ≤ int64Max := by
      rw [hnext]
      exact hsat
    have hs2 := submitHandler_success issue2 priority2 today2 db1 h2 hle2
    refine ⟨freshRecord issue1 priority1 today1 db,
      freshRecord issue2 priority2 today2 db1, ?_, ?_, ?_, ?_⟩
    · rw [hs1]
    · rw [hs1, hs2]
    · have hr1 : sqliteCastInt
          ((freshRecord issue1 priority1 today1 db).ID.data.drop 7) =
          get_next_ticket_number db :=
        suffix_roundtrip _ (le_of_lt (get_next_gt_min db)) hle1
      have hr2 : sqliteCastInt
          ((freshRecord issue2 priority2 today2 db1).ID.data.drop 7) =
          get_next_ticket_number db1 :=
        suffix_roundtrip _ (le_of_lt (get_next_gt_min db1)) hle2
      rw [hr1, hr2, hnext]
      omega
    · intro hempty
      have hr1 : sqliteCastInt
          ((freshRecord issue1 priority1 today1 db).ID.data.drop 7) =
          get_next_ticket_number db :=
        suffix_roundtrip _ (le_of_lt (get_next_gt_min db)) hle1
      rw [hr1]
      exact get_next_of_empty db hempty

/-- Counterexample to C1 as frozen: at a database state whose stored suffix
saturates SQLite's int64 CAST, `get_next_ticket_number` collides with the
stored id, the INSERT violates the primary key, and the creation yields no
ticket at all — so for-every-state success with strictly increasing
suffixes is false. -/
theorem c1_saturated_state_no_creation :
    ¬ ∃ r1 : TicketData,
      (submitHandler false ("a") ("High") ("2026-10-12")
        ⟨[⟨"TICKET-9223372036854775808", "x", "Open", "Low", "2026-10-11",
          0⟩], 1⟩).2 = .saved r1 := by
  intro hex
  obtain ⟨r1, hr1⟩ := hex
  have hev : (submitHandler false ("a") ("High") ("2026-10-12")
      ⟨[⟨"TICKET-9223372036854775808", "x", "Open", "Low", "2026-10-11",
        0⟩], 1⟩).2 =
      .storageFailed
        ("❌ Error al guardar el ticket: UNIQUE constraint failed: tickets.id") := by
    decide
  rw [hev] at hr1
  exact SubmitOutcome.noConfusion hr1

/-- Witness for C1: two creations starting from the empty database, with
the no-saturation premise discharged concretely. -/
theorem c1_next_number_max_and_monotone_witness :
    pyStrip ("a" : String).data ≠ [] ∧ pyStrip ("b" : String).data ≠ [] ∧
    get_next_ticket_number ⟨[], 0⟩ + 1 ≤ int64Max ∧
    ((⟨[], 0⟩ : DBState).rows = [] →
      get_next_ticket_number ⟨[], 0⟩ = 1001) ∧
    ((⟨[], 0⟩ : DBState).rows ≠ [] → ∃ m : Int,
      m ∈ (⟨[], 0⟩ : DBState).rows.map ticketSuffix ∧
      (∀ s ∈ (⟨[], 0⟩ : DBState).rows.map ticketSuffix, s ≤ m) ∧
      get_next_ticket_number ⟨[], 0⟩ = m + 1) ∧
    (∃ r1 r2 : TicketData,
      (submitHandler false ("a") ("High") ("2026-10-12") ⟨[], 0⟩).2 =
        .saved r1 ∧
      (submitHandler false ("b") ("Low") ("2026-10-13")
          (submitHandler false ("a") ("High") ("2026-10-12") ⟨[], 0⟩).1).2 =
        .saved r2 ∧
      sqliteCastInt (r1.ID.data.drop 7) < sqliteCastInt (r2.ID.data.drop 7) ∧
      ((⟨[], 0⟩ : DBState).rows = [] →
        sqliteCastInt (r1.ID.data.drop 7) = 1001)) := by
  have h := c1_next_number_max_and_monotone ⟨[], 0⟩ ("a") ("High")
    ("2026-10-12") ("b") ("Low") ("2026-10-13") (by decide) (by decide)
  exact ⟨by decide, by decide, by decide, h.1, h.2.1, h.2.2 (by decide)⟩

/-- **C4.** Listing returns all stored rows — a permutation of the table —
presented in creation-timestamp-descending order (newest first), and
performs no mutation: the state component of the result is the input state. -/
theorem c4_load_all_rows_sorted_pure (db : DBState) :
    (load_tickets_from_db db).1 = db ∧
    ∃ ts : List Ticket, ts.Perm db.rows ∧ ts.Sorted byCreatedDesc ∧
      (load_tickets_from_db db).2 = ts.map toRow := by
  refine ⟨rfl, db.rows.insertionSort byCreatedDesc, ?_, ?_, rfl⟩
  · exact List.perm_insertionSort byCreatedDesc db.rows
  · exact List.sorted_insertionSort byCreatedDesc db.rows

/-- **C5.** Updating an existing id overwrites exactly the status and
priority of the rows matching that id: length, clock, and every row's id,
issue, date_submitted and created_at are unchanged, matching rows get the
new status and priority, and non-matching rows are untouched. -/
theorem c5_update_overwrites_only_status_priority (db : DBState)
    (tid s p : String) (h : tid ∈ db.rows.map Ticket.id) :
    (update_ticket_in_db tid s p db).clock = db.clock ∧
    (update_ticket_in_db tid s p db).rows.length = db.rows.length ∧
    ∀ i (hi : i < db.rows.length)
      (hi2 : i < (update_ticket_in_db tid s p db).rows.length),
      ((update_ticket_in_db tid s p db).rows[i].id = db.rows[i].id ∧
        (update_ticket_in_db tid s p db).rows[i].issue = db.rows[i].issue ∧
        (update_ticket_in_db tid s p db).rows[i].dateSubmitted =
          db.rows[i].dateSubmitted ∧
        (update_ticket_in_db tid s p db).rows[i].createdAt =
          db.rows[i].createdAt) ∧
      (db.rows[i].id = tid →
        (update_ticket_in_db tid s p db).rows[i].status = s ∧
        (update_ticket_in_db tid s p db).rows[i].priority = p) ∧
      (db.rows[i].id ≠ tid →
        (update_ticket_in_db tid s p db).rows[i] = db.rows[i]) := by
  refine ⟨rfl, by simp [update_ticket_in_db], ?_⟩
  intro i hi hi2
  have hrw : (update_ticket_in_db tid s p db).rows[i] =
      if (db.rows[i]).id = tid
      then ⟨(db.rows[i]).id, (db.rows[i]).issue, s, p,
        (db.rows[i]).dateSubmitted, (db.rows[i]).createdAt⟩
      else db.rows[i] := by
    simp [update_ticket_in_db]
  by_cases hid : (db.rows[i]).id = tid
  · rw [hrw, if_pos hid]
    refine ⟨⟨rfl, rfl, rfl, rfl⟩, fun _ => ⟨rfl, rfl⟩, fun hne => absurd hid hne⟩
  · rw [hrw, if_neg hid]
    exact ⟨⟨rfl, rfl, rfl, rfl⟩, fun he => absurd he hid, fun _ => rfl⟩

/-- Witness for C5 on a two-row database, updating the first row's id. -/
theorem c5_update_overwrites_only_status_priority_witness :
    ("TICKET-1001" : String) ∈
      ([⟨"TICKET-1001", "a", "Open", "Low", "d1", 0⟩,
        ⟨"TICKET-1002", "b", "Open", "High", "d2", 1⟩] : List Ticket).map
        Ticket.id ∧
    ((update_ticket_in_db ("TICKET-1001") ("Closed") ("High")
        ⟨[⟨"TICKET-1001", "a", "Open", "Low", "d1", 0⟩,
          ⟨"TICKET-1002", "b", "Open", "High", "d2", 1⟩], 2⟩).clock =
      (⟨[⟨"TICKET-1001", "a", "Open", "Low", "d1", 0⟩,
          ⟨"TICKET-1002", "b", "Open", "High", "d2", 1⟩], 2⟩ : DBState).clock ∧
      (update_ticket_in_db ("TICKET-1001") ("Closed") ("High")
        ⟨[⟨"TICKET-1001", "a", "Open", "Low", "d1", 0⟩,
          ⟨"TICKET-1002", "b", "Open", "High", "d2", 1⟩], 2⟩).rows.length =
      (⟨[⟨"TICKET-1001", "a", "Open", "Low", "d1", 0⟩,
          ⟨"TICKET-1002", "b", "Open", "High", "d2", 1⟩], 2⟩ : DBState).rows.length ∧
      ∀ i (hi : i < (⟨[⟨"TICKET-1001", "a", "Open", "Low", "d1", 0⟩,
          ⟨"TICKET-1002", "b", "Open", "High", "d2", 1⟩], 2⟩ : DBState).rows.length)
        (hi2 : i < (update_ticket_in_db ("TICKET-1001") ("Closed") ("High")
          ⟨[⟨"TICKET-1001", "a", "Open", "Low", "d1", 0⟩,
            ⟨"TICKET-1002", "b", "Open", "High", "d2", 1⟩], 2⟩).rows.length),
        ((update_ticket_in_db ("TICKET-1001") ("Closed") ("High")
            ⟨[⟨"TICKET-1001", "a", "Open", "Low", "d1", 0⟩,
              ⟨"TICKET-1002", "b", "Open", "High", "d2", 1⟩], 2⟩).rows[i].id =
          (⟨[⟨"TICKET-1001", "a", "Open", "Low", "d1", 0⟩,
              ⟨"TICKET-1002", "b", "Open", "High", "d2", 1⟩], 2⟩ : DBState).rows[i].id ∧
          (update_ticket_in_db ("TICKET-1001") ("Closed") ("High")
            ⟨[⟨"TICKET-1001", "a", "Open", "Low", "d1", 0⟩,
              ⟨"TICKET-1002", "b", "Open", "High", "d2", 1⟩], 2⟩).rows[i].issue =
          (⟨[⟨"TICKET-1001", "a", "Open", "Low", "d1", 0⟩,
              ⟨"TICKET-1002", "b", "Open", "High", "d2", 1⟩], 2⟩ : DBState).rows[i].issue ∧
          (update_ticket_in_db ("TICKET-1001") ("Closed") ("High")
            ⟨[⟨"TICKET-1001", "a", "Open", "Low", "d1", 0⟩,
              ⟨"TICKET-1002", "b", "Open", "High", "d2", 1⟩], 2⟩).rows[i].dateSubmitted =
          (⟨[⟨"TICKET-1001", "a", "Open", "Low", "d1", 0⟩,
              ⟨"TICKET-1002", "b", "Open", "High", "d2", 1⟩], 2⟩ : DBState).rows[i].dateSubmitted ∧
          (update_ticket_in_db ("TICKET-1001") ("Closed") ("High")
            ⟨[⟨"TICKET-1001", "a", "Open", "Low", "d1", 0⟩,
              ⟨"TICKET-1002", "b", "Open", "High", "d2", 1⟩], 2⟩).rows[i].createdAt =
          (⟨[⟨"TICKET-1001", "a", "Open", "Low", "d1", 0⟩,
              ⟨"TICKET-1002", "b", "Open", "High", "d2", 1⟩], 2⟩ : DBState).rows[i].createdAt) ∧
        ((⟨[⟨"TICKET-1001", "a", "Open", "Low", "d1", 0⟩,
              ⟨"TICKET-1002", "b", "Open", "High", "d2", 1⟩], 2⟩ : DBState).rows[i].id =
            "TICKET-1001" →
          (update_ticket_in_db ("TICKET-1001") ("Closed") ("High")
            ⟨[⟨"TICKET-1001", "a", "Open", "Low", "d1", 0⟩,
              ⟨"TICKET-1002", "b", "Open", "High", "d2", 1⟩], 2⟩).rows[i].status =
            "Closed" ∧
          (update_ticket_in_db ("TICKET-1001") ("Closed") ("High")
            ⟨[⟨"TICKET-1001", "a", "Open", "Low", "d1", 0⟩,
              ⟨"TICKET-1002", "b", "Open", "High", "d2", 1⟩], 2⟩).rows[i].priority =
            "High") ∧
        ((⟨[⟨"TICKET-1001", "a", "Open", "Low", "d1", 0⟩,
              ⟨"TICKET-1002", "b", "Open", "High", "d2", 1⟩], 2⟩ : DBState).rows[i].id ≠
            "TICKET-1001" →
          (update_ticket_in_db ("TICKET-1001") ("Closed") ("High")
            ⟨[⟨"TICKET-1001", "a", "Open", "Low", "d1", 0⟩,
              ⟨"TICKET-1002", "b", "Open", "High", "d2", 1⟩], 2⟩).rows[i] =
          (⟨[⟨"TICKET-1001", "a", "Open", "Low", "d1", 0⟩,
              ⟨"TICKET-1002", "b", "Open", "High", "d2", 1⟩], 2⟩ : DBState).rows[i])) :=
  ⟨by decide, c5_update_overwrites_only_status_priority
    ⟨[⟨"TICKET-1001", "a", "Open", "Low", "d1", 0⟩,
      ⟨"TICKET-1002", "b", "Open", "High", "d2", 1⟩], 2⟩
    ("TICKET-1001") ("Closed") ("High") (by decide)⟩

/-- **C6.** Updating an id that no stored row carries leaves the database
state entirely unchanged, and the storage call reports success — no error
is raised and nothing is surfaced (silent no-op). -/
theorem c6_update_missing_id_silent_noop (db : DBState) (tid s p : String)
    (h : tid ∉ db.rows.map Ticket.id) :
    update_ticket_in_db tid s p db = db ∧
    update_ticket_in_db_f false tid s p db = .ok db := by
  have hrows : (db.rows.map (fun t : Ticket =>
      if t.id = tid then ⟨t.id, t.issue, s, p, t.dateSubmitted, t.createdAt⟩
      else t)) = db.rows := by
    have hpt : ∀ t ∈ db.rows, (fun t : Ticket =>
        if t.id = tid then
          (⟨t.id, t.issue, s, p, t.dateSubmitted, t.createdAt⟩ : Ticket)
        else t) t = t := by
      intro t ht
      have hne : t.id ≠ tid := fun he => h (he ▸ List.mem_map_of_mem Ticket.id ht)
      simp [hne]
    rw [List.map_congr_left hpt]
    simp
  have h1 : update_ticket_in_db tid s p db = db := by
    obtain ⟨rows, clock⟩ := db
    unfold update_ticket_in_db
    simp only at hrows ⊢
    rw [hrows]
  refine ⟨h1, ?_⟩
  unfold update_ticket_in_db_f
  rw [if_neg (by simp), h1]

/-- Witness for C6 at an id absent from a one-row database. -/
theorem c6_update_missing_id_silent_noop_witness :
    ("TICKET-9999" : String) ∉
      ([⟨"TICKET-1001", "a", "Open", "Low", "d1", 0⟩] : List Ticket).map
        Ticket.id ∧
    (update_ticket_in_db ("TICKET-9999") ("Closed") ("High")
        ⟨[⟨"TICKET-1001", "a", "Open", "Low", "d1", 0⟩], 1⟩ =
      ⟨[⟨"TICKET-1001", "a", "Open", "Low", "d1", 0⟩], 1⟩ ∧
    update_ticket_in_db_f false ("TICKET-9999") ("Closed") ("High")
        ⟨[⟨"TICKET-1001", "a", "Open", "Low", "d1", 0⟩], 1⟩ =
      .ok ⟨[⟨"TICKET-1001", "a", "Open", "Low", "d1", 0⟩], 1⟩) :=
  ⟨by decide, c6_update_missing_id_silent_noop
    ⟨[⟨"TICKET-1001", "a", "Open", "Low", "d1", 0⟩], 1⟩
    ("TICKET-9999") ("Closed") ("High") (by decide)⟩

/-- **C7.** `update_ticket_in_db` is idempotent: repeating the call with the
same id, status and priority leaves the state identical to one call. -/
theorem c7_update_idempotent (db : DBState) (tid s p : String) :
    update_ticket_in_db tid s p (update_ticket_in_db tid s p db) =
      update_ticket_in_db tid s p db := by
  obtain ⟨rows, clock⟩ := db
  unfold update_ticket_in_db
  simp only [List.map_map]
  congr 1
  apply List.map_congr_left
  intro t ht
  by_cases hid : t.id = tid <;> simp [Function.comp, hid]

/-! ### Helper lemmas about the reconciliation loop -/

/-- Declarative description of one position's diff: the update call the loop
issues when status or priority changed, nothing otherwise. -/
def diffCall (p : Row × Row) : Option UpdateCall :=
  if p.1.Status ≠ p.2.Status ∨ p.1.Priority ≠ p.2.Priority
  then some ⟨p.1.ID, p.1.Status, p.1.Priority⟩ else none

/-- Fold a list of recorded calls over the database. -/
def applyCalls (db : DBState) (cs : List UpdateCall) : DBState :=
  cs.foldl applyCall db

/-- The call trace of the loop is the position-wise diff of the two
snapshots (and is independent of the database value). -/
theorem reconcile_trace_eq (edited original : List Row) (db : DBState) :
    (reconcile edited original db).2 =
      (edited.zip original).filterMap diffCall := by
  induction edited generalizing original db with
  | nil => cases original <;> simp [reconcile]
  | cons e es ih =>
    cases original with
    | nil => simp [reconcile]
    | cons o os =>
      by_cases hc : e.Status ≠ o.Status ∨ e.Priority ≠ o.Priority
      · simp [reconcile, hc, diffCall, ih]
      · simp [reconcile, hc, diffCall, ih]

/-- The loop's final state is the fold of its trace over the input state. -/
theorem reconcile_state_eq (edited original : List Row) (db : DBState) :
    (reconcile edited original db).1 =
      applyCalls db (reconcile edited original db).2 := by
  induction edited generalizing original db with
  | nil => cases original <;> simp [reconcile, applyCalls]
  | cons e es ih =>
    cases original with
    | nil => simp [reconcile, applyCalls]
    | cons o os =>
      by_cases hc : e.Status ≠ o.Status ∨ e.Priority ≠ o.Priority
      · simp only [reconcile, hc, if_pos]
        rw [ih]
        simp [applyCalls, applyCall]
      · simp only [reconcile, hc, if_neg, ite_false]
        exact ih os db

/-- **C9.** For snapshots of equal length the reconciliation step issues
exactly the position-wise diff calls: one `update_ticket_in_db` call with
the edited row's ID, Status and Priority for each position whose status or
priority differs, none for positions where both agree; and the resulting
state is precisely those calls applied in order. -/
theorem c9_reconcile_positionwise_diff (edited original : List Row)
    (db : DBState) (h : edited.length = original.length) :
    (reconcile edited original db).2 =
      (edited.zip original).filterMap diffCall ∧
    (∀ i (hi : i < edited.length) (hio : i < original.length),
      ((edited[i].Status ≠ original[i].Status ∨
        edited[i].Priority ≠ original[i].Priority) →
        diffCall (edited[i], original[i]) =
          some ⟨edited[i].ID, edited[i].Status, edited[i].Priority⟩) ∧
      ((edited[i].Status = original[i].Status ∧
        edited[i].Priority = original[i].Priority) →
        diffCall (edited[i], original[i]) = none)) ∧
    (reconcile edited original db).1 =
      applyCalls db ((edited.zip original).filterMap diffCall) := by
  refine ⟨reconcile_trace_eq edited original db, ?_, ?_⟩
  · intro i hi hio
    constructor
    · intro hd
      simp [diffCall, hd]
    · intro hd
      simp [diffCall, hd.1, hd.2]
  · rw [← reconcile_trace_eq edited original db]
    exact reconcile_state_eq edited original db

/-- Witness for C9 on two-row snapshots where only the second row differs. -/
theorem c9_reconcile_positionwise_diff_witness :
    ([⟨"TICKET-1001", "a", "Open", "Low", "d1"⟩,
      ⟨"TICKET-1002", "b", "Closed", "High", "d2"⟩] : List Row).length =
    ([⟨"TICKET-1001", "a", "Open", "Low", "d1"⟩,
      ⟨"TICKET-1002", "b", "Open", "High", "d2"⟩] : List Row).length ∧
    (reconcile
      [⟨"TICKET-1001", "a", "Open", "Low", "d1"⟩,
        ⟨"TICKET-1002", "b", "Closed", "High", "d2"⟩]
      [⟨"TICKET-1001", "a", "Open", "Low", "d1"⟩,
        ⟨"TICKET-1002", "b", "Open", "High", "d2"⟩]
      ⟨[], 0⟩).2 =
    (([⟨"TICKET-1001", "a", "Open", "Low", "d1"⟩,
        ⟨"TICKET-1002", "b", "Closed", "High", "d2"⟩] : List Row).zip
      [⟨"TICKET-1001", "a", "Open", "Low", "d1"⟩,
        ⟨"TICKET-1002", "b", "Open", "High", "d2"⟩]).filterMap diffCall := by
  constructor
  · decide
  · exact (c9_reconcile_positionwise_diff
      [⟨"TICKET-1001", "a", "Open", "Low", "d1"⟩,
        ⟨"TICKET-1002", "b", "Closed", "High", "d2"⟩]
      [⟨"TICKET-1001", "a", "Open", "Low", "d1"⟩,
        ⟨"TICKET-1002", "b", "Open", "High", "d2"⟩]
      ⟨[], 0⟩ (by decide)).1

theorem applyCalls_cons (db : DBState) (c : UpdateCall) (cs : List UpdateCall) :
    applyCalls db (c :: cs) = applyCalls (applyCall db c) cs := rfl

/-- If the first storage failure hits the `j`-th issued update call, the loop
stops with exactly the first `j` calls applied — the failing statement
persists nothing — and the caught message is surfaced. -/
theorem reconcileF_first_failure (edited : List Row) :
    ∀ (original : List Row) (failAt : Nat → Bool) (k0 j : Nat) (db : DBState),
    (∀ k, k < j → failAt (k0 + k) = false) → failAt (k0 + j) = true →
    j < ((edited.zip original).filterMap diffCall).length →
    reconcileF failAt k0 edited original db =
      (applyCalls db (((edited.zip original).filterMap diffCall).take j),
        some ("❌ Error al actualizar: storage failure")) := by
  induction edited with
  | nil =>
    intro original failAt k0 j db h1 h2 hj
    simp at hj
  | cons e es ih =>
    intro original failAt k0 j db h1 h2 hj
    cases original with
    | nil => simp at hj
    | cons o os =>
      by_cases hc : e.Status ≠ o.Status ∨ e.Priority ≠ o.Priority
      · have htr : ((e :: es).zip (o :: os)).filterMap diffCall =
            (⟨e.ID, e.Status, e.Priority⟩ : UpdateCall) ::
              (es.zip os).filterMap diffCall := by
          simp [diffCall, hc]
        cases j with
        | zero =>
          have hf : failAt k0 = true := by simpa using h2
          rw [htr]
          simp [reconcileF, hc, update_ticket_in_db_f, hf, applyCalls]
        | succ j' =>
          have hf : failAt k0 = false := by
            have := h1 0 (Nat.succ_pos j')
            simpa using this
          rw [htr]
          rw [htr] at hj
          simp only [reconcileF, hc, if_pos, update_ticket_in_db_f, hf,
            Bool.false_eq_true, if_false, List.take_succ_cons, applyCalls_cons]
          have h1n : ∀ k, k < j' → failAt (k0 + 1 + k) = false := by
            intro k hk
            have := h1 (k + 1) (by omega)
            have harith : k0 + (k + 1) = k0 + 1 + k := by omega
            rw [harith] at this
            exact this
          have h2n : failAt (k0 + 1 + j') = true := by
            have harith : k0 + (j' + 1) = k0 + 1 + j' := by omega
            rw [harith] at h2
            exact h2
          have hjn : j' < ((es.zip os).filterMap diffCall).length := by
            simp at hj
            omega
          exact ih os failAt (k0 + 1) j'
            (applyCall db ⟨e.ID, e.Status, e.Priority⟩) h1n h2n hjn
      · have htr : ((e :: es).zip (o :: os)).filterMap diffCall =
            (es.zip os).filterMap diffCall := by
          push_neg at hc
          simp [diffCall, hc.1, hc.2]
        rw [htr]
        rw [htr] at hj
        simp only [reconcileF, hc, if_neg, ite_false]
        exact ih os failAt k0 j db h1 h2 hj

/-- **C8.** Storage failures are caught and surfaced, and no partial state
of the failing statement persists.  For the create path: a failing INSERT
leaves the database exactly as it was and the handler shows the error.  For
the edit path: if the first failure hits the `j`-th issued update call, the
loop stops with exactly the `j` already-completed calls applied — the state
equals the state from before the failing update began — and the caught
message is surfaced. -/
theorem c8_storage_failure_caught_atomic (db : DBState) :
    (∀ issue priority today : String, pyStrip issue.data ≠ [] →
      submitHandler true issue priority today db =
        (db, .storageFailed
          ("❌ Error al guardar el ticket: storage failure"))) ∧
    (∀ (edited original : List Row) (failAt : Nat → Bool) (j : Nat),
      (∀ k, k < j → failAt k = false) → failAt j = true →
      j < ((edited.zip original).filterMap diffCall).length →
      reconcileF failAt 0 edited original db =
        (applyCalls db (((edited.zip original).filterMap diffCall).take j),
          some ("❌ Error al actualizar: storage failure"))) := by
  constructor
  · intro issue priority today h
    unfold submitHandler
    rw [if_neg h]
    simp [save_ticket_to_db]
  · intro edited original failAt j h1 h2 hj
    refine reconcileF_first_failure edited original failAt 0 j db ?_ ?_ hj
    · intro k hk
      have := h1 k hk
      simpa using this
    · simpa using h2

/-- Witness for C8: a failing create on a one-row database, and a failing
first update call of a one-changed-row reconciliation. -/
theorem c8_storage_failure_caught_atomic_witness :
    (pyStrip ("hot" : String).data ≠ [] ∧
      submitHandler true ("hot") ("High") ("2026-10-12")
          ⟨[⟨"TICKET-1001", "a", "Open", "Low", "d1", 0⟩], 1⟩ =
        (⟨[⟨"TICKET-1001", "a", "Open", "Low", "d1", 0⟩], 1⟩,
          .storageFailed
            ("❌ Error al guardar el ticket: storage failure"))) ∧
    ((∀ k, k < 0 → (fun _ : Nat => true) k = false) ∧
      (fun _ : Nat => true) 0 = true ∧
      0 < ((([⟨"TICKET-1001", "a", "Closed", "Low", "d1"⟩] : List Row).zip
        ([⟨"TICKET-1001", "a", "Open", "Low", "d1"⟩] : List Row)).filterMap
          diffCall).length ∧
      reconcileF (fun _ : Nat => true) 0
          [⟨"TICKET-1001", "a", "Closed", "Low", "d1"⟩]
          [⟨"TICKET-1001", "a", "Open", "Low", "d1"⟩]
          ⟨[⟨"TICKET-1001", "a", "Open", "Low", "d1", 0⟩], 1⟩ =
        (applyCalls ⟨[⟨"TICKET-1001", "a", "Open", "Low", "d1", 0⟩], 1⟩
          (((([⟨"TICKET-1001", "a", "Closed", "Low", "d1"⟩] : List Row).zip
            ([⟨"TICKET-1001", "a", "Open", "Low", "d1"⟩] : List Row)).filterMap
              diffCall).take 0),
          some ("❌ Error al actualizar: storage failure"))) := by
  constructor
  · exact ⟨by decide,
      (c8_storage_failure_caught_atomic
        ⟨[⟨"TICKET-1001", "a", "Open", "Low", "d1", 0⟩], 1⟩).1
      ("hot") ("High") ("2026-10-12") (by decide)⟩
  · refine ⟨by omega, rfl, by decide, ?_⟩
    exact (c8_storage_failure_caught_atomic
        ⟨[⟨"TICKET-1001", "a", "Open", "Low", "d1", 0⟩], 1⟩).2
      [⟨"TICKET-1001", "a", "Closed", "Low", "d1"⟩]
      [⟨"TICKET-1001", "a", "Open", "Low", "d1"⟩]
      (fun _ : Nat => true) 0 (by omega) rfl (by decide)
